import Mathlib

/-
Verification of the opik Python SDK telemetry delivery layer
(src/sdks/python/src/opik/api_objects/opik_client.py) against its
natural-language specification.

Embedding conventions:
- Timestamps are Nat, opaque JSON payloads (input/output/metadata/usage,
  error_info) are Option String, numeric scores and costs are Int.
- Effectful collaborators that are not part of the verified code
  (id_helpers.generate_id, datetime_helpers.local_timestamp,
  validation_helpers.validate_feedback_score,
  validation_helpers.validate_and_parse_usage,
  helpers.add_usage_to_metadata, the per-message serialized-size estimate)
  are passed in as explicit parameters, so every function is pure and
  deterministic.
- Code of the repository that is not under src/ (the batching splitter,
  the streamer/queue/consumer machinery, functools.lru_cache) is modelled
  from the spec; each such definition carries a doc comment starting with
  "Modelled from the spec:".
-/

/-- Feedback-score dictionary as supplied by the caller
(opik.types.FeedbackScoreDict): an optional entity `id`, a `name`, a
numeric `value` and optional `reason` / `category_name`. -/
structure FeedbackScoreDict where
  id : Option String
  name : String
  value : Int
  reason : Option String
  category_name : Option String
deriving DecidableEq, Repr

/-- The messages.FeedbackScoreMessage payload built by
Opik.log_traces_feedback_scores / Opik.log_spans_feedback_scores: the
score dict fields plus `source` and `project_name`. -/
structure FeedbackScoreMessage where
  source : String
  project_name : String
  id : Option String
  name : String
  value : Int
  reason : Option String
  category_name : Option String
deriving DecidableEq, Repr

/-- Streamer messages constructed by opik_client.py and handed to
streamer.put, one constructor per messages.* class used there. -/
inductive StreamerMessage where
  | CreateTraceMessage (trace_id : String) (project_name : String)
      (name : Option String) (start_time : Nat) (end_time : Option Nat)
      (input : Option String) (output : Option String)
      (metadata : Option String) (tags : Option (List String))
      (error_info : Option String) (thread_id : Option String)
  | CreateSpanMessage (span_id : String) (trace_id : String)
      (project_name : String) (parent_span_id : Option String)
      (name : Option String) (type : String) (start_time : Nat)
      (end_time : Option Nat) (input : Option String)
      (output : Option String) (metadata : Option String)
      (tags : Option (List String)) (usage : Option String)
      (model : Option String) (provider : Option String)
      (error_info : Option String) (total_cost : Option Int)
  | AddSpanFeedbackScoresBatchMessage (batch : List FeedbackScoreMessage)
  | AddTraceFeedbackScoresBatchMessage (batch : List FeedbackScoreMessage)
deriving DecidableEq, Repr

/-- The trace.Trace handle returned by Opik.trace (the message_streamer
reference is kept implicit: the embedding returns put calls separately). -/
structure Trace where
  id : String
  project_name : String
deriving DecidableEq, Repr

/-- The span.Span handle returned by Opik.span. -/
structure Span where
  id : String
  parent_span_id : Option String
  trace_id : String
  project_name : String
deriving DecidableEq, Repr

/-- Modelled from the spec: constants.FEEDBACK_SCORE_SOURCE_SDK is not
under src/; it is an opaque source tag attached to every score logged
through the SDK. -/
def FEEDBACK_SCORE_SOURCE_SDK : String := "sdk"

/-- Building one messages.FeedbackScoreMessage from a validated score
dict, as done inline in Opik.log_traces_feedback_scores /
Opik.log_spans_feedback_scores: `source` is the SDK tag, `project_name`
is `project_name or self._project_name`, the remaining fields come from
the dict. -/
def toFeedbackScoreMessage (self_project_name : String)
    (project_name : Option String) (d : FeedbackScoreDict) :
    FeedbackScoreMessage :=
  { source := FEEDBACK_SCORE_SOURCE_SDK
    project_name := project_name.getD self_project_name
    id := d.id
    name := d.name
    value := d.value
    reason := d.reason
    category_name := d.category_name }

/-- Modelled from the spec: sequence_splitter.split_into_batches is not
under src/ (opik_client.py only calls it). Spec 4.3: a pure, greedy
left-to-right splitter over an ordered sequence of same-kind items with
two caps, `max_length` (item count) and a serialized-byte cap estimated
by a per-item size function `sz`: extend the current batch while both
caps are not yet exceeded, otherwise close it and start a new one with
the next item; an item whose own size already exceeds the byte cap
passes through as a singleton batch. `splitGo` carries the current batch
in reverse (`acc`, never empty) together with its summed size. -/
def splitGo {α : Type} (sz : α → Nat) (maxLen maxBytes : Nat) :
    List α → List α → Nat → List (List α)
  | [], acc, _ => [acc.reverse]
  | x :: xs, acc, accSize =>
    if acc.length + 1 ≤ maxLen ∧ accSize + sz x ≤ maxBytes then
      splitGo sz maxLen maxBytes xs (x :: acc) (accSize + sz x)
    else
      acc.reverse :: splitGo sz maxLen maxBytes xs [x] (sz x)

/-- Modelled from the spec: entry point of the greedy splitter of spec
4.3 (see `splitGo`); an empty input yields no batches. -/
def split_into_batches {α : Type} (sz : α → Nat) (maxLen maxBytes : Nat) :
    List α → List (List α)
  | [] => []
  | x :: xs => splitGo sz maxLen maxBytes xs [x] (sz x)

/-- Sum of the estimated sizes of the messages of one batch. -/
def batchSize {α : Type} (sz : α → Nat) (b : List α) : Nat :=
  (b.map sz).sum

namespace Opik

/-- Embedding of Opik.log_spans_feedback_scores: keep the scores that
pass validation, return immediately (no streamer.put call) when none is
left, otherwise build one FeedbackScoreMessage per valid score, split
them into batches and put one AddSpanFeedbackScoresBatchMessage per
batch. The result is the ordered list of streamer.put calls performed.
The validator `valid` (validation_helpers.validate_feedback_score), the
per-message size estimate `sz` and the two caps (config.MAX_BATCH_SIZE_MB
and constants.FEEDBACK_SCORES_MAX_BATCH_SIZE) live outside src/ and are
parameters. -/
def log_spans_feedback_scores (valid : FeedbackScoreDict → Bool)
    (sz : FeedbackScoreMessage → Nat) (max_payload_size maxLen : Nat)
    (self_project_name : String) (scores : List FeedbackScoreDict)
    (project_name : Option String) : List StreamerMessage :=
  let valid_scores := scores.filter valid
  if valid_scores.length = 0 then []
  else
    (split_into_batches sz maxLen max_payload_size
        (valid_scores.map (toFeedbackScoreMessage self_project_name project_name))).map
      StreamerMessage.AddSpanFeedbackScoresBatchMessage

/-- Embedding of Opik.log_traces_feedback_scores: identical to
`Opik.log_spans_feedback_scores` except that each batch is wrapped in an
AddTraceFeedbackScoresBatchMessage. -/
def log_traces_feedback_scores (valid : FeedbackScoreDict → Bool)
    (sz : FeedbackScoreMessage → Nat) (max_payload_size maxLen : Nat)
    (self_project_name : String) (scores : List FeedbackScoreDict)
    (project_name : Option String) : List StreamerMessage :=
  let valid_scores := scores.filter valid
  if valid_scores.length = 0 then []
  else
    (split_into_batches sz maxLen max_payload_size
        (valid_scores.map (toFeedbackScoreMessage self_project_name project_name))).map
      StreamerMessage.AddTraceFeedbackScoresBatchMessage

/-- Embedding of Opik.trace: default the id to a freshly generated one
and the start time to the current timestamp, default the project name to
the client's, put a CreateTraceMessage, then, when feedback_scores is
not None, overwrite the `id` of every score dict with the trace id and
log them via `Opik.log_traces_feedback_scores`. Returns the ordered list
of streamer.put calls and the returned trace.Trace handle.
`generated_id` stands for the value id_helpers.generate_id() would
return and `now` for datetime_helpers.local_timestamp(). -/
def trace (self_project_name : String) (valid : FeedbackScoreDict → Bool)
    (sz : FeedbackScoreMessage → Nat) (max_payload_size maxLen : Nat)
    (generated_id : String) (now : Nat) (id : Option String)
    (name : Option String) (start_time end_time : Option Nat)
    (input output metadata : Option String) (tags : Option (List String))
    (feedback_scores : Option (List FeedbackScoreDict))
    (project_name : Option String) (error_info thread_id : Option String) :
    List StreamerMessage × Trace :=
  let id := id.getD generated_id
  let start_time := start_time.getD now
  let project_name := project_name.getD self_project_name
  let create_trace_message := StreamerMessage.CreateTraceMessage id
    project_name name start_time end_time input output metadata tags
    error_info thread_id
  let feedback_messages :=
    match feedback_scores with
    | none => []
    | some scores =>
      log_traces_feedback_scores valid sz max_payload_size maxLen
        self_project_name (scores.map fun s => { s with id := some id })
        (some project_name)
  (create_trace_message :: feedback_messages,
   { id := id, project_name := project_name })

/-- Embedding of Opik.span: default the span id and start time, run the
usage through the (abstract) validation_helpers.validate_and_parse_usage
(`parse_usage`) and enrich the metadata via the abstract
helpers.add_usage_to_metadata (`add_usage_to_metadata`) when it parses,
default the project name; when trace_id is None, generate a fresh trace
id and put a CreateTraceMessage carrying it first; put the
CreateSpanMessage; when feedback_scores is not None, overwrite each
score's `id` with the span id and log them via
`Opik.log_spans_feedback_scores`. Returns the ordered streamer.put calls
and the span.Span handle. `generated_id` / `generated_trace_id` stand
for the successive id_helpers.generate_id() results, `now` for
datetime_helpers.local_timestamp(). -/
def span (self_project_name : String) (valid : FeedbackScoreDict → Bool)
    (sz : FeedbackScoreMessage → Nat) (max_payload_size maxLen : Nat)
    (parse_usage : Option String → Option String)
    (add_usage_to_metadata : Option String → Option String → Option String)
    (generated_id generated_trace_id : String) (now : Nat)
    (trace_id id parent_span_id : Option String) (name : Option String)
    (type : String) (start_time end_time : Option Nat)
    (metadata input output : Option String) (tags : Option (List String))
    (usage : Option String)
    (feedback_scores : Option (List FeedbackScoreDict))
    (project_name : Option String) (model provider : Option String)
    (error_info : Option String) (total_cost : Option Int) :
    List StreamerMessage × Span :=
  let id := id.getD generated_id
  let start_time := start_time.getD now
  let backend_compatible_usage := parse_usage usage
  let metadata :=
    match backend_compatible_usage with
    | some _ => add_usage_to_metadata usage metadata
    | none => metadata
  let project_name := project_name.getD self_project_name
  let tid := trace_id.getD generated_trace_id
  let create_span_message := StreamerMessage.CreateSpanMessage id tid
    project_name parent_span_id name type start_time end_time input output
    metadata tags backend_compatible_usage model provider error_info
    total_cost
  let feedback_messages :=
    match feedback_scores with
    | none => []
    | some scores =>
      log_spans_feedback_scores valid sz max_payload_size maxLen
        self_project_name (scores.map fun s => { s with id := some id })
        (some project_name)
  let msgs :=
    match trace_id with
    | none =>
      StreamerMessage.CreateTraceMessage tid project_name name start_time
          end_time input output metadata tags error_info none
        :: create_span_message :: feedback_messages
    | some _ => create_span_message :: feedback_messages
  (msgs,
   { id := id, parent_span_id := parent_span_id, trace_id := tid,
     project_name := project_name })

end Opik

/-- Modelled from the spec: state of the Streamer facade with its
EventQueue and ConsumerPool (the message_processing package is not under
src/; only the Opik facade that calls streamer.flush / streamer.close
is). `queue` holds the pending messages, `in_flight` counts units of
consumer work claimed but not yet delivered, `closed` records that the
workers were signalled to stop. Time is discretized: one unit of pending
work is completed per time step. -/
structure StreamerState where
  queue : List StreamerMessage
  in_flight : Nat
  closed : Bool
deriving DecidableEq, Repr

/-- Total work still observable by flush: queued messages plus in-flight
consumer work. -/
def streamerPending (s : StreamerState) : Nat :=
  s.queue.length + s.in_flight

namespace Streamer

/-- Modelled from the spec: draining for at most `t` discrete time steps
(none = no timeout, drain everything); each step completes one unit of
in-flight work, then queued messages are consumed in FIFO order. -/
def drain : Option Nat → StreamerState → StreamerState
  | none, s => { s with queue := [], in_flight := 0 }
  | some t, s =>
    if t ≤ s.in_flight then { s with in_flight := s.in_flight - t }
    else { s with in_flight := 0, queue := s.queue.drop (t - s.in_flight) }

/-- Modelled from the spec: Streamer.flush(timeout) (spec 4.5) blocks
until the messages enqueued strictly before the call and the in-flight
consumer work are drained or the timeout elapses, and returns whether
full drainage was observed. -/
def flush (t : Option Nat) (s : StreamerState) : StreamerState × Bool :=
  let s' := drain t s
  (s', streamerPending s' == 0)

/-- Modelled from the spec: Streamer.close(timeout) (spec 4.5) is
flush(timeout) followed by signalling all workers to stop; it is guarded
so that a second call is a no-op. The Bool is the drain result observed
(surfaced to flush/close callers per spec 7). -/
def close (t : Option Nat) (s : StreamerState) : StreamerState × Bool :=
  if s.closed then (s, streamerPending s == 0)
  else
    let p := flush t s
    ({ p.1 with closed := true }, p.2)

end Streamer

/-- Timeout defaulting done by Opik.flush and Opik.end:
`timeout if timeout is not None else self._flush_timeout`. -/
def effectiveTimeout (flush_timeout timeout : Option Nat) : Option Nat :=
  match timeout with
  | some t => some t
  | none => flush_timeout

namespace Opik

/-- Embedding of Opik.flush: default the timeout to the configured
flush timeout and delegate to streamer.flush. The Python method returns
None, so the drain Bool of the streamer is discarded. -/
def flush (flush_timeout timeout : Option Nat) (s : StreamerState) :
    StreamerState :=
  (Streamer.flush (effectiveTimeout flush_timeout timeout) s).1

/-- Embedding of Opik.end: default the timeout to the configured flush
timeout and delegate to streamer.close. Returns None in Python, so only
the streamer state is kept. -/
def end' (flush_timeout timeout : Option Nat) (s : StreamerState) :
    StreamerState :=
  (Streamer.close (effectiveTimeout flush_timeout timeout) s).1

end Opik

/-- The client instance cached process-wide; only the fields relevant to
the cached constructor call Opik(_use_batching=True) are kept. -/
structure OpikClient where
  project_name : String
  use_batching : Bool
deriving DecidableEq, Repr

/-- State of the functools.lru_cache wrapper around get_client_cached:
the memoized instance, if any, and how many times the underlying
constructor has run. -/
structure LruCacheState where
  cached : Option OpikClient
  constructor_calls : Nat
deriving DecidableEq, Repr

/-- Modelled from the spec: get_client_cached is wrapped in
functools.lru_cache() on zero arguments (spec 9: the source caches one
client instance process-wide), so a call returns the memoized instance
when present and otherwise runs the constructor exactly once and caches
the result. `mk k` stands for the instance the k-th constructor run
would produce. -/
def get_client_cached (mk : Nat → OpikClient) (s : LruCacheState) :
    OpikClient × LruCacheState :=
  match s.cached with
  | some c => (c, s)
  | none =>
    let c := mk s.constructor_calls
    (c, { cached := some c, constructor_calls := s.constructor_calls + 1 })

/-- Results of `n` successive get_client_cached calls in one process,
threading the lru cache state. -/
def get_client_cached_calls (mk : Nat → OpikClient) :
    Nat → LruCacheState → List OpikClient × LruCacheState
  | 0, s => ([], s)
  | n + 1, s =>
    let p := get_client_cached mk s
    let q := get_client_cached_calls mk n p.2
    (p.1 :: q.1, q.2)

/-- True exactly on CreateTraceMessage. -/
def StreamerMessage.isCreateTrace : StreamerMessage → Bool
  | .CreateTraceMessage .. => true
  | _ => false

/-- The trace id carried by a CreateTraceMessage, none otherwise. -/
def StreamerMessage.createTraceId : StreamerMessage → Option String
  | .CreateTraceMessage trace_id .. => some trace_id
  | _ => none

/-- The (span id, trace id) carried by a CreateSpanMessage. -/
def StreamerMessage.createSpanIds : StreamerMessage → Option (String × String)
  | .CreateSpanMessage span_id trace_id .. => some (span_id, trace_id)
  | _ => none

/-- The batches carried by the AddTraceFeedbackScoresBatchMessages of a
put-call list, in order. -/
def traceScoreBatches : List StreamerMessage → List (List FeedbackScoreMessage)
  | [] => []
  | StreamerMessage.AddTraceFeedbackScoresBatchMessage b :: rest =>
      b :: traceScoreBatches rest
  | _ :: rest => traceScoreBatches rest

/-- The batches carried by the AddSpanFeedbackScoresBatchMessages of a
put-call list, in order. -/
def spanScoreBatches : List StreamerMessage → List (List FeedbackScoreMessage)
  | [] => []
  | StreamerMessage.AddSpanFeedbackScoresBatchMessage b :: rest =>
      b :: spanScoreBatches rest
  | _ :: rest => spanScoreBatches rest

theorem splitGo_flatten {α : Type} (sz : α → Nat) (maxLen maxBytes : Nat) :
    ∀ (xs acc : List α) (accSize : Nat),
      (splitGo sz maxLen maxBytes xs acc accSize).flatten = acc.reverse ++ xs := by
  intro xs
  induction xs with
  | nil =>
    intro acc accSize
    simp [splitGo]
  | cons x xs ih =>
    intro acc accSize
    by_cases h : acc.length + 1 ≤ maxLen ∧ accSize + sz x ≤ maxBytes
    · simp only [splitGo, if_pos h, ih]
      simp
    · simp only [splitGo, if_neg h, List.flatten_cons, ih]
      simp

theorem split_into_batches_flatten {α : Type} (sz : α → Nat)
    (maxLen maxBytes : Nat) (items : List α) :
    (split_into_batches sz maxLen maxBytes items).flatten = items := by
  cases items with
  | nil => simp [split_into_batches]
  | cons x xs => simp [split_into_batches, splitGo_flatten]

theorem mem_of_mem_split {α : Type} {sz : α → Nat} {maxLen maxBytes : Nat}
    {items b : List α} {x : α}
    (hb : b ∈ split_into_batches sz maxLen maxBytes items) (hx : x ∈ b) :
    x ∈ items := by
  have hmem : x ∈ (split_into_batches sz maxLen maxBytes items).flatten :=
    List.mem_flatten.mpr ⟨b, hb, hx⟩
  rwa [split_into_batches_flatten] at hmem

theorem batchSize_reverse {α : Type} (sz : α → Nat) (l : List α) :
    batchSize sz l.reverse = batchSize sz l := by
  simp [batchSize, List.sum_reverse]

theorem splitGo_caps {α : Type} (sz : α → Nat) (maxLen maxBytes : Nat)
    (hml : 1 ≤ maxLen) :
    ∀ (xs acc : List α) (accSize : Nat),
      accSize = batchSize sz acc → acc ≠ [] → acc.length ≤ maxLen →
      (2 ≤ acc.length → accSize ≤ maxBytes) →
      ∀ b ∈ splitGo sz maxLen maxBytes xs acc accSize,
        b.length ≤ maxLen ∧
          (batchSize sz b ≤ maxBytes ∨ ∃ x, b = [x] ∧ maxBytes < sz x) := by
  intro xs
  induction xs with
  | nil =>
    intro acc accSize hsz hne hlen hbytes b hb
    simp only [splitGo, List.mem_singleton] at hb
    subst hb
    refine ⟨by simpa using hlen, ?_⟩
    rw [batchSize_reverse]
    match acc, hne with
    | [a], _ =>
      by_cases ha : sz a ≤ maxBytes
      · exact Or.inl (by simpa [batchSize] using ha)
      · exact Or.inr ⟨a, by simp, by omega⟩
    | a :: a' :: rest, _ =>
      exact Or.inl (hsz ▸ hbytes (by simp [Nat.succ_le_succ]))
  | cons x xs ih =>
    intro acc accSize hsz hne hlen hbytes b hb
    by_cases h : acc.length + 1 ≤ maxLen ∧ accSize + sz x ≤ maxBytes
    · rw [splitGo, if_pos h] at hb
      refine ih (x :: acc) (accSize + sz x) ?_ (by simp) ?_ ?_ b hb
      · simp [batchSize, hsz, Nat.add_comm]
      · simpa using h.1
      · intro _; exact h.2
    · rw [splitGo, if_neg h] at hb
      rcases List.mem_cons.mp hb with hb | hb
      · subst hb
        refine ⟨by simpa using hlen, ?_⟩
        rw [batchSize_reverse]
        match acc, hne with
        | [a], _ =>
          by_cases ha : sz a ≤ maxBytes
          · exact Or.inl (by simpa [batchSize] using ha)
          · exact Or.inr ⟨a, by simp, by omega⟩
        | a :: a' :: rest, _ =>
          exact Or.inl (hsz ▸ hbytes (by simp [Nat.succ_le_succ]))
      · refine ih [x] (sz x) (by simp [batchSize]) (by simp) (by simpa using hml)
          (by intro hc; simp at hc) b hb

/-- C1: the batch splitter is a lossless partition: concatenating all
batches, in order, reproduces the input sequence exactly (same elements,
same order, same count, no loss, no duplication), for every input
sequence, size estimate and pair of caps. -/
theorem split_into_batches_lossless {α : Type} (sz : α → Nat)
    (maxLen maxBytes : Nat) (items : List α) :
    (split_into_batches sz maxLen maxBytes items).flatten = items :=
  split_into_batches_flatten sz maxLen maxBytes items

/-- C2 counterexample: with max_item_count = 0 the claim as stated fails:
the lossless splitter must still emit the item, producing a batch whose
count (1) exceeds the cap (0), which the oversized-singleton byte-cap
exception does not excuse. -/
theorem split_into_batches_caps_counterexample :
    ¬ ∀ b ∈ split_into_batches (fun _ : Nat => 1) 0 1000 [7],
        b.length ≤ 0 := by
  decide

/-- C2 (amended with max_item_count ≥ 1): every batch produced by the
splitter has count ≤ max_item_count, and summed estimated size ≤
max_serialized_bytes except when the batch is a singleton whose item's
own estimated size already exceeds the byte cap; such an item is passed
through (never dropped or truncated). -/
theorem split_into_batches_caps {α : Type} (sz : α → Nat)
    (maxLen maxBytes : Nat) (items : List α) (hml : 1 ≤ maxLen) :
    ∀ b ∈ split_into_batches sz maxLen maxBytes items,
      b.length ≤ maxLen ∧
        (batchSize sz b ≤ maxBytes ∨ ∃ x, b = [x] ∧ maxBytes < sz x) := by
  cases items with
  | nil => intro b hb; simp [split_into_batches] at hb
  | cons x xs =>
    intro b hb
    exact splitGo_caps sz maxLen maxBytes hml xs [x] (sz x)
      (by simp [batchSize]) (by simp) (by simpa using hml)
      (by intro hc; simp at hc) b hb

/-- C2 witness: the amended cap invariant evaluated on a concrete input:
items of sizes 3, 3, 9 with caps max_item_count = 2,
max_serialized_bytes = 5 give batches [3], [3], [9] and the oversized
item 9 passes as a singleton. -/
theorem split_into_batches_caps_witness :
    (1 ≤ 2) ∧
      ∀ b ∈ split_into_batches (fun n : Nat => n) 2 5 [3, 3, 9],
        b.length ≤ 2 ∧
          (batchSize (fun n : Nat => n) b ≤ 5 ∨ ∃ x, b = [x] ∧ 5 < x) :=
  ⟨by decide, split_into_batches_caps (fun n : Nat => n) 2 5 [3, 3, 9] (by decide)⟩

set_option maxRecDepth 20000 in
/-- C5: 250 feedback score messages with max_item_count = 100 and a
non-binding byte cap yield exactly 3 batches of sizes [100, 100, 50] in
that order, and log_traces_feedback_scores performs exactly 3
streamer.put calls, one batch message per batch, in that size order. -/
theorem feedback_scores_250_scenario :
    (Opik.log_traces_feedback_scores (fun _ => true) (fun _ => 1)
        1000000000 100 "project"
        (List.replicate 250
          { id := some "trace-id", name := "metric", value := 1,
            reason := none, category_name := none })
        none).length = 3
    ∧ (traceScoreBatches
        (Opik.log_traces_feedback_scores (fun _ => true) (fun _ => 1)
          1000000000 100 "project"
          (List.replicate 250
            { id := some "trace-id", name := "metric", value := 1,
              reason := none, category_name := none })
          none)).map List.length = [100, 100, 50] := by
  decide

theorem streamerPending_drain_some (n : Nat) (s : StreamerState) :
    streamerPending (Streamer.drain (some n) s) = streamerPending s - n := by
  by_cases h : n ≤ s.in_flight
  · simp only [Streamer.drain, if_pos h, streamerPending]
    omega
  · simp only [Streamer.drain, if_neg h, streamerPending, List.length_drop]
    omega

/-- C3: the streamer facade's flush observes drainage: its Bool result
is true exactly when all work pending at the call (queued messages and
in-flight consumer work) has been drained within the timeout budget
(and always with no timeout), and the Opik.flush method of the client
delegates to it with the defaulted timeout, discarding the Bool. -/
theorem flush_returns_drainage_observed :
    ∀ (t : Option Nat) (s : StreamerState),
      ((Streamer.flush t s).2 = true ↔
        streamerPending (Streamer.flush t s).1 = 0)
      ∧ (∀ n : Nat, (Streamer.flush (some n) s).2 = true ↔
          streamerPending s ≤ n)
      ∧ (Streamer.flush none s).2 = true
      ∧ ∀ ft : Option Nat,
          Opik.flush ft t s = (Streamer.flush (effectiveTimeout ft t) s).1 := by
  intro t s
  refine ⟨?_, ?_, ?_, ?_⟩
  · simp [Streamer.flush]
  · intro n
    simp [Streamer.flush, streamerPending_drain_some, Nat.sub_eq_zero_iff_le]
  · simp [Streamer.flush, Streamer.drain, streamerPending]
  · intro ft
    rfl

theorem close_fst_closed (t : Option Nat) (s : StreamerState) :
    (Streamer.close t s).1.closed = true := by
  by_cases h : s.closed <;> simp [Streamer.close, h]

theorem close_of_closed (t : Option Nat) (s : StreamerState)
    (h : s.closed = true) : (Streamer.close t s).1 = s := by
  simp [Streamer.close, h]

/-- C4: close is idempotent: a second Opik.end (streamer close) after
one has completed changes no state and performs no further work, and a
close with timeout 0 on a non-empty queue reports partial drainage
(false) without crashing. -/
theorem end_close_idempotent :
    ∀ (ft t t' : Option Nat) (s : StreamerState),
      Opik.end' ft t' (Opik.end' ft t s) = Opik.end' ft t s
      ∧ ∀ (m : StreamerMessage) (q : List StreamerMessage) (k : Nat)
          (c : Bool),
          (Streamer.close (some 0)
            { queue := m :: q, in_flight := k, closed := c }).2 = false := by
  intro ft t t' s
  constructor
  · simp only [Opik.end']
    exact close_of_closed _ _ (close_fst_closed _ _)
  · intro m q k c
    by_cases hc : c
    · simp [Streamer.close, hc, streamerPending]
    · simp [Streamer.close, hc, Streamer.flush, Streamer.drain,
        streamerPending]

theorem get_client_cached_calls_of_cached (mk : Nat → OpikClient)
    (c : OpikClient) (k : Nat) :
    ∀ n : Nat,
      get_client_cached_calls mk n { cached := some c, constructor_calls := k }
        = (List.replicate n c,
           { cached := some c, constructor_calls := k }) := by
  intro n
  induction n with
  | zero => simp [get_client_cached_calls]
  | succ n ih =>
    simp [get_client_cached_calls, get_client_cached, ih,
      List.replicate_succ]

/-- C7: the process-wide client cache is a singleton: every sequence of
get_client_cached calls in one process returns the one instance built by
the first constructor run, and the constructor runs at most once. -/
theorem get_client_cached_singleton :
    ∀ (mk : Nat → OpikClient) (n : Nat),
      (get_client_cached_calls mk n
          { cached := none, constructor_calls := 0 }).1
        = List.replicate n (mk 0)
      ∧ (get_client_cached_calls mk n
          { cached := none, constructor_calls := 0 }).2.constructor_calls ≤ 1 := by
  intro mk n
  cases n with
  | zero => simp [get_client_cached_calls]
  | succ n =>
    simp [get_client_cached_calls, get_client_cached,
      get_client_cached_calls_of_cached, List.replicate_succ]

theorem mem_split_map_scores {sz : FeedbackScoreMessage → Nat}
    {maxLen maxBytes : Nat} {f : FeedbackScoreDict → FeedbackScoreMessage}
    {scores : List FeedbackScoreDict} {b : List FeedbackScoreMessage}
    (hb : b ∈ split_into_batches sz maxLen maxBytes (scores.map f))
    {fs : FeedbackScoreMessage} (hfs : fs ∈ b) :
    ∃ d ∈ scores, fs = f d := by
  have h := mem_of_mem_split hb hfs
  rcases List.mem_map.mp h with ⟨d, hd, rfl⟩
  exact ⟨d, hd, rfl⟩

theorem mem_log_traces_feedback_scores {valid : FeedbackScoreDict → Bool}
    {sz : FeedbackScoreMessage → Nat} {mps maxLen : Nat} {sp : String}
    {scores : List FeedbackScoreDict} {pn : Option String}
    {m : StreamerMessage}
    (hm : m ∈ Opik.log_traces_feedback_scores valid sz mps maxLen sp scores pn) :
    ∃ batch, m = StreamerMessage.AddTraceFeedbackScoresBatchMessage batch
      ∧ ∀ fs ∈ batch, ∃ d ∈ scores, valid d = true
          ∧ fs = toFeedbackScoreMessage sp pn d := by
  simp only [Opik.log_traces_feedback_scores] at hm
  by_cases h : (List.filter valid scores).length = 0
  · rw [if_pos h] at hm
    simp at hm
  · rw [if_neg h] at hm
    rcases List.mem_map.mp hm with ⟨batch, hbatch, rfl⟩
    refine ⟨batch, rfl, ?_⟩
    intro fs hfs
    rcases mem_split_map_scores hbatch hfs with ⟨d, hd, rfl⟩
    rcases List.mem_filter.mp hd with ⟨hd1, hd2⟩
    exact ⟨d, hd1, hd2, rfl⟩

theorem mem_log_spans_feedback_scores {valid : FeedbackScoreDict → Bool}
    {sz : FeedbackScoreMessage → Nat} {mps maxLen : Nat} {sp : String}
    {scores : List FeedbackScoreDict} {pn : Option String}
    {m : StreamerMessage}
    (hm : m ∈ Opik.log_spans_feedback_scores valid sz mps maxLen sp scores pn) :
    ∃ batch, m = StreamerMessage.AddSpanFeedbackScoresBatchMessage batch
      ∧ ∀ fs ∈ batch, ∃ d ∈ scores, valid d = true
          ∧ fs = toFeedbackScoreMessage sp pn d := by
  simp only [Opik.log_spans_feedback_scores] at hm
  by_cases h : (List.filter valid scores).length = 0
  · rw [if_pos h] at hm
    simp at hm
  · rw [if_neg h] at hm
    rcases List.mem_map.mp hm with ⟨batch, hbatch, rfl⟩
    refine ⟨batch, rfl, ?_⟩
    intro fs hfs
    rcases mem_split_map_scores hbatch hfs with ⟨d, hd, rfl⟩
    rcases List.mem_filter.mp hd with ⟨hd1, hd2⟩
    exact ⟨d, hd1, hd2, rfl⟩

theorem trace_batch_scores_id {valid : FeedbackScoreDict → Bool}
    {sz : FeedbackScoreMessage → Nat} {mps maxLen : Nat} {sp : String}
    {sid : String} {l : List FeedbackScoreDict} {pn : Option String}
    {m : StreamerMessage} {batch : List FeedbackScoreMessage}
    {fs : FeedbackScoreMessage}
    (hm : m ∈ Opik.log_traces_feedback_scores valid sz mps maxLen sp
      (l.map fun s => { s with id := some sid }) pn)
    (hmb : m = StreamerMessage.AddTraceFeedbackScoresBatchMessage batch)
    (hfs : fs ∈ batch) : fs.id = some sid := by
  rcases mem_log_traces_feedback_scores hm with ⟨batch', rfl, hall⟩
  simp only [StreamerMessage.AddTraceFeedbackScoresBatchMessage.injEq] at hmb
  subst hmb
  rcases hall fs hfs with ⟨d, hd, _, rfl⟩
  rcases List.mem_map.mp hd with ⟨s, _, rfl⟩
  simp [toFeedbackScoreMessage]

theorem span_batch_scores_id {valid : FeedbackScoreDict → Bool}
    {sz : FeedbackScoreMessage → Nat} {mps maxLen : Nat} {sp : String}
    {sid : String} {l : List FeedbackScoreDict} {pn : Option String}
    {m : StreamerMessage} {batch : List FeedbackScoreMessage}
    {fs : FeedbackScoreMessage}
    (hm : m ∈ Opik.log_spans_feedback_scores valid sz mps maxLen sp
      (l.map fun s => { s with id := some sid }) pn)
    (hmb : m = StreamerMessage.AddSpanFeedbackScoresBatchMessage batch)
    (hfs : fs ∈ batch) : fs.id = some sid := by
  rcases mem_log_spans_feedback_scores hm with ⟨batch', rfl, hall⟩
  simp only [StreamerMessage.AddSpanFeedbackScoresBatchMessage.injEq] at hmb
  subst hmb
  rcases hall fs hfs with ⟨d, hd, _, rfl⟩
  rcases List.mem_map.mp hd with ⟨s, _, rfl⟩
  simp [toFeedbackScoreMessage]

/-- C8: Opik.trace with a feedback_scores list overwrites the id of
every score dict with the trace's id before logging them: every
feedback score carried by any AddTraceFeedbackScoresBatchMessage put by
the call holds the trace's id, and Opik.span does the same with the
span's id for the AddSpanFeedbackScoresBatchMessages it puts. -/
theorem trace_span_feedback_ids_overwritten
    (sp : String) (valid : FeedbackScoreDict → Bool)
    (sz : FeedbackScoreMessage → Nat) (mps maxLen : Nat)
    (pu : Option String → Option String)
    (au : Option String → Option String → Option String)
    (gid gtid : String) (now : Nat)
    (id trace_id parent_span_id name : Option String) (ty : String)
    (st et : Option Nat) (inp out md : Option String)
    (tags : Option (List String)) (us : Option String)
    (l : List FeedbackScoreDict) (pn model prov ei tid : Option String)
    (tc : Option Int) :
    (∀ m ∈ (Opik.trace sp valid sz mps maxLen gid now id name st et inp out
        md tags (some l) pn ei tid).1,
      ∀ batch, m = StreamerMessage.AddTraceFeedbackScoresBatchMessage batch →
        ∀ fs ∈ batch,
          fs.id = some (Opik.trace sp valid sz mps maxLen gid now id name st
            et inp out md tags (some l) pn ei tid).2.id)
    ∧ (∀ m ∈ (Opik.span sp valid sz mps maxLen pu au gid gtid now trace_id id
        parent_span_id name ty st et md inp out tags us (some l) pn model
        prov ei tc).1,
      ∀ batch, m = StreamerMessage.AddSpanFeedbackScoresBatchMessage batch →
        ∀ fs ∈ batch,
          fs.id = some (Opik.span sp valid sz mps maxLen pu au gid gtid now
            trace_id id parent_span_id name ty st et md inp out tags us
            (some l) pn model prov ei tc).2.id) := by
  constructor
  · intro m hm batch hmb fs hfs
    simp only [Opik.trace] at hm ⊢
    rcases List.mem_cons.mp hm with rfl | hm
    · simp at hmb
    · exact trace_batch_scores_id hm hmb hfs
  · intro m hm batch hmb fs hfs
    cases trace_id with
    | none =>
      simp only [Opik.span] at hm ⊢
      rcases List.mem_cons.mp hm with rfl | hm
      · simp at hmb
      rcases List.mem_cons.mp hm with rfl | hm
      · simp at hmb
      exact span_batch_scores_id hm hmb hfs
    | some t =>
      simp only [Opik.span] at hm ⊢
      rcases List.mem_cons.mp hm with rfl | hm
      · simp at hmb
      exact span_batch_scores_id hm hmb hfs

/-- C8 witness: a concrete Opik.trace call with one feedback score whose
caller-supplied id is absent: the logged score carries the trace id. -/
theorem trace_span_feedback_ids_overwritten_witness :
    (FeedbackScoreMessage.mk "sdk" "p" (some "g") "acc" 1 none none).id
      = some "g" :=
  (trace_span_feedback_ids_overwritten "p" (fun _ => true) (fun _ => 0) 100 10
      (fun u => u) (fun _ m => m) "g" "t" 0 none none none none "general"
      none none none none none none none
      [{ id := none, name := "acc", value := 1, reason := none,
         category_name := none }] none none none none none none).1
    (StreamerMessage.AddTraceFeedbackScoresBatchMessage
      [FeedbackScoreMessage.mk "sdk" "p" (some "g") "acc" 1 none none])
    (by decide)
    [FeedbackScoreMessage.mk "sdk" "p" (some "g") "acc" 1 none none]
    rfl
    (FeedbackScoreMessage.mk "sdk" "p" (some "g") "acc" 1 none none)
    (by decide)

/-- C9: Opik.span with trace_id None generates a fresh trace id and puts
a CreateTraceMessage carrying it before the CreateSpanMessage, and the
returned Span handle carries that generated trace id; when a trace_id is
provided, no CreateTraceMessage is put. -/
theorem span_generates_trace_when_missing
    (sp : String) (valid : FeedbackScoreDict → Bool)
    (sz : FeedbackScoreMessage → Nat) (mps maxLen : Nat)
    (pu : Option String → Option String)
    (au : Option String → Option String → Option String)
    (gid gtid : String) (now : Nat)
    (id parent_span_id name : Option String) (ty : String)
    (st et : Option Nat) (inp out md : Option String)
    (tags : Option (List String)) (us : Option String)
    (fsc : Option (List FeedbackScoreDict))
    (pn model prov ei : Option String) (tc : Option Int) :
    ((Opik.span sp valid sz mps maxLen pu au gid gtid now none id
        parent_span_id name ty st et md inp out tags us fsc pn model prov ei
        tc).2.trace_id = gtid
      ∧ ∃ m1 m2 rest,
          (Opik.span sp valid sz mps maxLen pu au gid gtid now none id
            parent_span_id name ty st et md inp out tags us fsc pn model prov
            ei tc).1 = m1 :: m2 :: rest
          ∧ m1.createTraceId = some gtid
          ∧ m2.createSpanIds = some (id.getD gid, gtid))
    ∧ ∀ t : String,
        ∀ m ∈ (Opik.span sp valid sz mps maxLen pu au gid gtid now (some t)
          id parent_span_id name ty st et md inp out tags us fsc pn model
          prov ei tc).1,
          m.isCreateTrace = false := by
  refine ⟨⟨rfl, ⟨_, _, _, rfl, rfl, rfl⟩⟩, ?_⟩
  intro t m hm
  cases fsc with
  | none =>
    simp only [Opik.span] at hm
    rcases List.mem_cons.mp hm with rfl | hm
    · rfl
    · simp at hm
  | some l =>
    simp only [Opik.span] at hm
    rcases List.mem_cons.mp hm with rfl | hm
    · rfl
    · rcases mem_log_spans_feedback_scores hm with ⟨batch, rfl, -⟩
      rfl

/-- C9 witness: a concrete Opik.span call with a provided trace id puts
only the CreateSpanMessage (no CreateTraceMessage). -/
theorem span_generates_trace_when_missing_witness :
    StreamerMessage.isCreateTrace
      (StreamerMessage.CreateSpanMessage "g" "t0" "p" none none "general" 0
        none none none none none none none none none none) = false :=
  (span_generates_trace_when_missing "p" (fun _ => true) (fun _ => 0) 100 10
      (fun u => u) (fun _ m => m) "g" "t" 0 none none none "general" none
      none none none none none none none none none none none none).2 "t0"
    (StreamerMessage.CreateSpanMessage "g" "t0" "p" none none "general" 0
      none none none none none none none none none none)
    (by decide)

/-- C10: the feedback-score loggers first drop every score failing
validation (logging a list is the same as logging its validated
sublist), and when no score passes validation they return without
performing any streamer.put call. -/
theorem log_feedback_scores_drop_invalid
    (valid : FeedbackScoreDict → Bool) (sz : FeedbackScoreMessage → Nat)
    (mps maxLen : Nat) (sp : String) (scores : List FeedbackScoreDict)
    (pn : Option String) :
    (Opik.log_traces_feedback_scores valid sz mps maxLen sp scores pn
        = Opik.log_traces_feedback_scores valid sz mps maxLen sp
            (scores.filter valid) pn)
    ∧ (Opik.log_spans_feedback_scores valid sz mps maxLen sp scores pn
        = Opik.log_spans_feedback_scores valid sz mps maxLen sp
            (scores.filter valid) pn)
    ∧ ((∀ s ∈ scores, valid s = false) →
        Opik.log_traces_feedback_scores valid sz mps maxLen sp scores pn = []
        ∧ Opik.log_spans_feedback_scores valid sz mps maxLen sp scores pn
            = []) := by
  refine ⟨?_, ?_, ?_⟩
  · simp [Opik.log_traces_feedback_scores, List.filter_filter]
  · simp [Opik.log_spans_feedback_scores, List.filter_filter]
  · intro h
    have hf : scores.filter valid = [] := by
      rw [List.filter_eq_nil_iff]
      intro a ha
      simp [h a ha]
    constructor
    · simp [Opik.log_traces_feedback_scores, hf]
    · simp [Opik.log_spans_feedback_scores, hf]

/-- C10 witness: logging one score that fails validation performs no
streamer.put call, for traces and for spans. -/
theorem log_feedback_scores_drop_invalid_witness :
    Opik.log_traces_feedback_scores (fun _ => false) (fun _ => 0) 10 10 "p"
        [{ id := none, name := "acc", value := 1, reason := none,
           category_name := none }] none = []
    ∧ Opik.log_spans_feedback_scores (fun _ => false) (fun _ => 0) 10 10 "p"
        [{ id := none, name := "acc", value := 1, reason := none,
           category_name := none }] none = [] :=
  (log_feedback_scores_drop_invalid (fun _ => false) (fun _ => 0) 10 10 "p"
      [{ id := none, name := "acc", value := 1, reason := none,
         category_name := none }] none).2.2 (by decide)
